import Mathlib

/-!
Shallow embedding of the LeanTheme ajax cart controller.

The source is src/assets/cart.js (the LeanCart module) together with a legacy
variant of the badge update in an unnamed source file. The controller is a
single-threaded, event-driven DOM orchestrator; we embed one user-visible
operation at a time as a pure function from an explicit state to a new state.
External inputs (HTTP responses for the section fragment, the cart JSON, the
change endpoint and the add endpoint) are passed as explicit environment
values. Network requests and dispatched DOM events are recorded in traces so
that observational claims (how many refreshes ran, which payload reached the
change endpoint) can be stated about them.

Modelling notes, stated once here:
- Machine-level DOM details (element identity, focus management, the per-line
  is-updating class mark and the focus trap) have no bearing on any claim and
  are not modelled; they touch neither the flags nor the traces.
- The loading indicator, when present, is assumed to live inside the drawer
  panel, which is what the re-cache in refreshCart
  (elements.drawer.querySelector) relies on.
- Async interleaving: operations are embedded as their complete, settled
  effect. The only ordering facts any claim uses are per-trace orders, which
  the sequential composition preserves.
-/

namespace LeanCart

/-- Cart summary fetched from the cart JSON endpoint: item_count and
total_price, both non-negative integers per the platform contract. -/
structure Cart where
  item_count : Nat
  total_price : Nat
deriving DecidableEq

/-- One added cart line as returned by the add endpoint. The controller treats
it as an opaque payload, so a bare identifier suffices. -/
structure Item where
  id : Nat
deriving DecidableEq

/-- The drawer container element: its aria-hidden attribute value, whether the
is-open class is present, its data-auto-open attribute, and the inner HTML of
the panel element inside it (none when the drawer has no panel). -/
structure DrawerEl where
  ariaHidden : String
  isOpenClass : Bool
  autoOpenAttr : Option String
  panel : Option String
deriving DecidableEq

/-- One cart count badge element from cart.js: its text content, whether the
hiding class cart-icon__badge--hidden is present, and whether the bump
animation class is-bumping is present. -/
structure Badge where
  text : String
  hiddenClass : Bool
  bumpClass : Bool
deriving DecidableEq

/-- Payload of an add request: a serialized form or a JSON object. -/
inductive AddPayload where
  | formData (entries : List (String × String))
  | jsonObj (fields : List (String × String))
deriving DecidableEq

/-- Outbound network requests the controller can issue. -/
inductive Request where
  | fetchSection
  | fetchCartJson
  | changeLine (id : Option String) (quantity : Int)
  | addLine (payload : AddPayload)
deriving DecidableEq

/-- DOM events the controller dispatches. -/
inductive Ev where
  | opened
  | closed
  | updated
  | itemAdded (item : Item)
  | shippingMeterUpdate (totalPrice : Nat)
deriving DecidableEq

/-- Complete controller state: the module flags isOpen and isUpdating, the
drawer element (none when absent from the page), the cached loading element
(some hidden, where hidden is the state of its hidden attribute), all badge
elements, the text of all data-cart-count elements, the body no-scroll class,
and the request and event traces. -/
structure St where
  isOpen : Bool
  isUpdating : Bool
  drawer : Option DrawerEl
  loading : Option Bool
  badges : List Badge
  counts : List String
  noScroll : Bool
  requests : List Request
  events : List Ev
deriving DecidableEq

/-- Parsed section-rendering response: whether the fetched document contains a
drawer element, the panel inner HTML inside it (none when absent), and the
loading element contained in that new panel content (none when absent, some
hidden otherwise). -/
structure Fragment where
  hasDrawer : Bool
  panel : Option String
  loading : Option Bool
deriving DecidableEq

/-- Environment of one refreshCart run: the section fragment response (none
when the fetch or the HTML parse throws) and the cart JSON response (none when
fetchCart fails, which it swallows internally). -/
structure REnv where
  sectionHtml : Option Fragment
  cartJson : Option Cart
deriving DecidableEq

/-- Environment of one updateItem run: whether the change endpoint answered
with a success status, and the environment of the follow-up refresh. -/
structure UEnv where
  changeOk : Bool
  refresh : REnv
deriving DecidableEq

/-- Best-effort error payload of a failed add response. -/
structure ErrBody where
  description : Option String
  message : Option String
deriving DecidableEq

/-- Outcome of the add endpoint call: a parsed added line on success, a
non-success HTTP status with an optional parsed error body (none when the
body did not parse, which the code turns into an empty object), or a network
rejection carrying the thrown message. A 2xx response whose JSON body fails to
parse also behaves like networkError. -/
inductive AddResp where
  | success (item : Item)
  | httpError (status : Nat) (body : Option ErrBody)
  | networkError (msg : String)
deriving DecidableEq

/-- Environment of one addItem run: the add response, the environment of the
direct refresh, and the environment of the refresh started by open when the
drawer is opened afterwards. -/
structure AEnv where
  resp : AddResp
  refresh : REnv
  openRefresh : REnv
deriving DecidableEq

/-- showLoading: remove the hidden attribute of the cached loading element,
if any. -/
def showLoading (s : St) : St :=
  { s with loading := s.loading.map (fun _ => false) }

/-- hideLoading: set the hidden attribute of the cached loading element,
if any. -/
def hideLoading (s : St) : St :=
  { s with loading := s.loading.map (fun _ => true) }

/-- updateShippingMeter: dispatch the shipping-meter:update event carrying the
new total. -/
def updateShippingMeter (totalPrice : Nat) (s : St) : St :=
  { s with events := s.events ++ [Ev.shippingMeterUpdate totalPrice] }

/-- fetchCart: issue the cart JSON request; the result is the parsed cart, or
none when the fetch or parse failed (the failure is caught inside fetchCart
and surfaced as null). -/
def fetchCart (resp : Option Cart) (s : St) : St × Option Cart :=
  ({ s with requests := s.requests ++ [Request.fetchCartJson] }, resp)

/-- Effect of updateCartBadges on one badge element: set its text to the
count; when the count is positive, remove the hiding class and replay the
bump animation (remove the class, force a layout read, re-add it, so the
class ends up present); when the count is zero, add the hiding class and
leave the bump class untouched. -/
def updateBadgeEl (count : Nat) (b : Badge) : Badge :=
  let b1 : Badge := { b with text := toString count }
  if count > 0 then
    { b1 with hiddenClass := false, bumpClass := true }
  else
    { b1 with hiddenClass := true }

/-- updateCartBadges from cart.js: fetch the cart JSON; on failure return with
no DOM change; on success set every data-cart-count text, update every badge
element, and notify the shipping meter. -/
def updateCartBadges (resp : Option Cart) (s : St) : St × Option Cart :=
  let p := fetchCart resp s
  match p.2 with
  | none => (p.1, none)
  | some cart =>
    let count := cart.item_count
    let s1 := { p.1 with counts := p.1.counts.map (fun _ => "(" ++ toString count ++ ")") }
    let s2 := { s1 with badges := s1.badges.map (updateBadgeEl count) }
    (updateShippingMeter cart.total_price s2, some cart)

/-- refreshCart: fetch the rendered section fragment; on a fetch or parse
failure, catch and log, leaving everything but the request trace unchanged.
Otherwise, when both the fetched document and the live page have a drawer,
replace the inner content of the live panel with the fetched panel content
(only when both panels exist), re-cache the loading element from the patched
drawer, and re-add the is-open class when it was present before the patch.
Finally run updateCartBadges with the cart JSON response. -/
def refreshCart (env : REnv) (s : St) : St :=
  let s0 := { s with requests := s.requests ++ [Request.fetchSection] }
  match env.sectionHtml with
  | none => s0
  | some frag =>
    let s1 :=
      match s0.drawer, frag.hasDrawer with
      | some d, true =>
        let wasOpen := d.isOpenClass
        let patched := frag.panel.isSome && d.panel.isSome
        let d1 := if patched then { d with panel := frag.panel } else d
        let newLoading :=
          if patched then frag.loading
          else if d.panel.isSome then s0.loading else none
        let d2 := if wasOpen then { d1 with isOpenClass := true } else d1
        { s0 with drawer := some d2, loading := newLoading }
      | _, _ => s0
    (updateCartBadges env.cartJson s1).1

/-- open from cart.js (openCart here, since open is a reserved word): no-op
when the drawer element is absent or the drawer is already open; otherwise set
the open flag, the aria-hidden attribute and the is-open class, lock body
scroll, run a refresh, and dispatch the cart:opened event. Recording the
trigger element and moving focus into the panel are focus-only effects, not
modelled. -/
def openCart (env : REnv) (s : St) : St :=
  match s.drawer with
  | none => s
  | some d =>
    if s.isOpen then s
    else
      let s1 := { s with
        isOpen := true,
        drawer := some { d with ariaHidden := "false", isOpenClass := true },
        noScroll := true }
      let s2 := refreshCart env s1
      { s2 with events := s2.events ++ [Ev.opened] }

/-- close from cart.js (closeCart here): no-op when the drawer element is
absent or the drawer is already closed; otherwise clear the open flag, the
aria-hidden attribute and the is-open class, unlock body scroll, and dispatch
the cart:closed event. Restoring focus to the trigger is a focus-only effect,
not modelled. -/
def closeCart (s : St) : St :=
  match s.drawer with
  | none => s
  | some d =>
    if s.isOpen then
      { s with
        isOpen := false,
        drawer := some { d with ariaHidden := "true", isOpenClass := false },
        noScroll := false,
        events := s.events ++ [Ev.closed] }
    else s

/-- toggle from cart.js (toggleCart here): dispatch to close or open on the
current flag. -/
def toggleCart (env : REnv) (s : St) : St :=
  if s.isOpen then closeCart s else openCart env s

/-- updateItem: dropped outright when another update is in flight; otherwise
set the in-flight flag, show the loading indicator, POST id and quantity to
the change endpoint; on success refresh and dispatch cart:updated; on failure
log (the per-line visual mark removal is focus-free but badge-free too, not
modelled); in all cases finally clear the in-flight flag and hide the loading
indicator. -/
def updateItem (env : UEnv) (key : Option String) (quantity : Int) (s : St) : St :=
  if s.isUpdating then s
  else
    let s1 := { s with isUpdating := true }
    let s2 := showLoading s1
    let s3 := { s2 with requests := s2.requests ++ [Request.changeLine key quantity] }
    let s4 :=
      if env.changeOk then
        let r := refreshCart env.refresh s3
        { r with events := r.events ++ [Ev.updated] }
      else s3
    hideLoading { s4 with isUpdating := false }

/-- removeItem: call updateItem with quantity zero. -/
def removeItem (env : UEnv) (key : Option String) (s : St) : St :=
  updateItem env key 0 s

/-- The JS truthiness fallback chain value || default for string-valued
fields: undefined and the empty string are falsy. -/
def jsStringOr (v : Option String) (d : String) : String :=
  match v with
  | none => d
  | some str => if str = "" then d else str

/-- Error message computed by addItem for a non-success response:
errorData.description or errorData.message or the fixed fallback text, with
JS falsiness (an empty string falls through). -/
def addErrorMessage (body : Option ErrBody) : String :=
  match body with
  | none => "Add to cart failed"
  | some b => jsStringOr b.description (jsStringOr b.message ("Add to cart failed"))

/-- addItem: show the loading indicator, POST the payload to the add
endpoint. On a non-success status, build the error message from the parsed
body and throw it; on a network rejection rethrow; either failure is logged
and re-raised to the caller. On success refresh, optionally open the drawer,
and dispatch cart:item-added with the added line. In all cases finally hide
the loading indicator. -/
def addItem (env : AEnv) (payload : AddPayload) (openDrawer : Bool) (s : St) :
    St × Except String Item :=
  let s0 := showLoading s
  let s1 := { s0 with requests := s0.requests ++ [Request.addLine payload] }
  match env.resp with
  | AddResp.networkError m => (hideLoading s1, Except.error m)
  | AddResp.httpError _ body => (hideLoading s1, Except.error (addErrorMessage body))
  | AddResp.success item =>
    let s2 := refreshCart env.refresh s1
    let s3 := if openDrawer then openCart env.openRefresh s2 else s2
    let s4 := { s3 with events := s3.events ++ [Ev.itemAdded item] }
    (hideLoading s4, Except.ok item)

/-- Whether the first list is a prefix of the second, on characters. -/
def hasPrefixL : List Char → List Char → Bool
  | [], _ => true
  | _ :: _, [] => false
  | a :: as, b :: bs => a == b && hasPrefixL as bs

/-- Whether the needle occurs contiguously in the haystack, on characters. -/
def containsL (needle : List Char) : List Char → Bool
  | [] => hasPrefixL needle []
  | b :: bs => hasPrefixL needle (b :: bs) || containsL needle bs

/-- The JS string includes test: the needle occurs in the haystack (an empty
needle is always found, matching JS). -/
def jsIncludes (s sub : String) : Bool :=
  containsL sub.toList s.toList

/-- State of the submit button of an add-to-cart form: the disabled flag, its
inner content, and whether the is-success class is present. -/
structure BtnState where
  disabled : Bool
  content : String
  successClass : Bool
deriving DecidableEq

/-- An add-to-cart form as the submit handler sees it: its action attribute,
the value of its variant id field (none when the field is absent), its submit
button (none when absent), and its serialized entries. -/
structure Form where
  action : Option String
  variantId : Option String
  btn : Option BtnState
  entries : List (String × String)
deriving DecidableEq

/-- Observable outcome of the submit handler: whether the default submission
was prevented, whether a native form submission was triggered as fallback,
the final button state, and the resulting controller state. -/
structure HResult where
  prevented : Bool
  nativeSubmit : Bool
  btn : Option BtnState
  st : St
deriving DecidableEq

/-- handleAddToCart: ignore forms whose action does not target the add
endpoint (a missing or empty action also falls through, since an empty string
contains no needle) and forms without a truthy variant id, letting the native
submission proceed. Otherwise prevent the default, disable and relabel the
button, read the auto-open preference from the drawer dataset, and delegate
to addItem. On success show the success label (the 1500ms timer that later
restores the button is outside the settled handler run); on failure restore
the button and trigger a native submission. -/
def handleAddToCart (env : AEnv) (form : Form) (s : St) : HResult :=
  match form.action with
  | none => { prevented := false, nativeSubmit := false, btn := form.btn, st := s }
  | some action =>
    if jsIncludes action ("/cart/add") = false then
      { prevented := false, nativeSubmit := false, btn := form.btn, st := s }
    else if jsStringOr form.variantId "" = "" then
      { prevented := false, nativeSubmit := false, btn := form.btn, st := s }
    else
      match form.btn with
      | none => { prevented := true, nativeSubmit := false, btn := none, st := s }
      | some btn0 =>
        let originalHTML := btn0.content
        let autoOpen : Bool :=
          match s.drawer with
          | some d => !(d.autoOpenAttr == some ("false"))
          | none => true
        let r := addItem env (AddPayload.formData form.entries) autoOpen s
        match r.2 with
        | Except.ok _ =>
          { prevented := true, nativeSubmit := false,
            btn := some { disabled := true, content := "Hinzugefügt!", successClass := true },
            st := r.1 }
        | Except.error _ =>
          { prevented := true, nativeSubmit := true,
            btn := some { disabled := false, content := originalHTML,
                          successClass := btn0.successClass },
            st := r.1 }

/-- Whitespace as skipped by the JS number parsing entry points. -/
def isWS (c : Char) : Bool :=
  c = ' ' || c = '\t' || c = '\n' || c = '\r'

/-- Value of one digit character in the given base, none when the character
is not a digit of that base. -/
def digitVal (base : Nat) (c : Char) : Option Nat :=
  let v :=
    if '0' ≤ c && c ≤ '9' then some (c.toNat - Char.toNat '0')
    else if 'a' ≤ c && c ≤ 'f' then some (c.toNat - Char.toNat 'a' + 10)
    else if 'A' ≤ c && c ≤ 'F' then some (c.toNat - Char.toNat 'A' + 10)
    else none
  match v with
  | some n => if n < base then some n else none
  | none => none

/-- Longest digit prefix value in the given base; the accumulator is none
until a first digit is seen, matching NaN for a digitless input. -/
def parseDigits (base : Nat) : List Char → Option Nat → Option Nat
  | [], acc => acc
  | c :: cs, acc =>
    match digitVal base c with
    | some d => parseDigits base cs (some ((acc.getD 0) * base + d))
    | none => acc

/-- The JS parseInt applied to a string with no radix argument: skip leading
whitespace, read an optional sign, honor a hex prefix, take the longest digit
prefix; none models NaN. -/
def jsParseInt (s : String) : Option Int :=
  let cs := s.toList.dropWhile isWS
  let signed : Int × List Char :=
    match cs with
    | '-' :: rest => (-1, rest)
    | '+' :: rest => (1, rest)
    | _ => (1, cs)
  let based : Nat × List Char :=
    match signed.2 with
    | '0' :: 'x' :: rest => (16, rest)
    | '0' :: 'X' :: rest => (16, rest)
    | _ => (10, signed.2)
  (parseDigits based.1 based.2 none).map (fun n => signed.1 * (n : Int))

/-- The pattern parseInt(x) || d from the handlers: NaN and zero are falsy
and give the default. A missing attribute or element gives parseInt of
undefined, which is NaN. -/
def parseIntOr (v : Option String) (d : Int) : Int :=
  match v with
  | none => d
  | some str =>
    match jsParseInt str with
    | none => d
    | some n => if n = 0 then d else n

/-- A quantity stepper button as handleQuantityClick resolves it: its line
key and qty-change dataset attributes, and the value of the quantity input of
the enclosing item (none when the item or the input is absent). -/
structure QtyBtn where
  lineKey : Option String
  qtyChangeAttr : Option String
  inputValue : Option String
deriving DecidableEq

/-- handleQuantityClick: ignore clicks outside stepper buttons; otherwise
compute the change (default 0) and the current quantity (default 1), clamp
the sum at zero, and update the line. -/
def handleQuantityClick (env : UEnv) (btn : Option QtyBtn) (s : St) : St :=
  match btn with
  | none => s
  | some b =>
    let change := parseIntOr b.qtyChangeAttr 0
    let currentQty := parseIntOr b.inputValue 1
    let newQty := max 0 (currentQty + change)
    updateItem env b.lineKey newQty s

/-- handleQuantityInput: ignore change events from other inputs; otherwise
update the line to parseInt of the typed value with fallback 0. -/
def handleQuantityInput (env : UEnv) (matchesInput : Bool) (lineKey : Option String)
    (value : String) (s : St) : St :=
  if matchesInput then updateItem env lineKey (parseIntOr (some value) 0) s else s

/-- handleRemoveClick: ignore clicks outside remove buttons; otherwise remove
the line with the key from the button dataset. -/
def handleRemoveClick (env : UEnv) (btn : Option (Option String)) (s : St) : St :=
  match btn with
  | none => s
  | some lineKey => removeItem env lineKey s

/-- handleCartIconClick: open the drawer when the click landed on a cart
icon. -/
def handleCartIconClick (env : REnv) (iconFound : Bool) (s : St) : St :=
  if iconFound then openCart env s else s

/-- handleCloseClick: close the drawer when the click landed on a close
control or the backdrop. -/
def handleCloseClick (closeTarget : Bool) (s : St) : St :=
  if closeTarget then closeCart s else s

/-- handleKeydown: Escape closes the drawer when open; the focus trap branch
moves focus only and changes no visibility state. -/
def handleKeydown (keyName : String) (s : St) : St :=
  if keyName == "Escape" && s.isOpen then closeCart s else s

/-- Legacy badge element from the unnamed source file: text and bump class;
this variant removes the element outright when the cart is empty. -/
structure LegacyBadge where
  text : String
  bumpClass : Bool
deriving DecidableEq

/-- A cart icon wrapper from the unnamed source file, holding its badge child
when present. -/
structure Wrapper where
  badge : Option LegacyBadge
deriving DecidableEq

/-- updateCartBadge from the unnamed legacy source file: fetch the cart JSON
(failures caught and logged, leaving the wrappers unchanged); for a positive
count create the badge when missing, set its text and replay the bump
animation; for a zero count remove the badge element. -/
def updateCartBadge (resp : Option Cart) (ws : List Wrapper) : List Wrapper :=
  match resp with
  | none => ws
  | some cart =>
    if cart.item_count > 0 then
      ws.map (fun _ =>
        { badge := some { text := toString cart.item_count, bumpClass := true } })
    else
      ws.map (fun _ => { badge := none })

/-- Drawer visibility invariant: the DOM state of the drawer (presence of the
is-open class and the aria-hidden value) matches the module-level isOpen flag;
when the drawer element is absent, the flag is down. -/
def drawerInv (s : St) : Bool :=
  match s.drawer with
  | none => !s.isOpen
  | some d =>
    (d.isOpenClass == s.isOpen) &&
      (d.ariaHidden == (if s.isOpen then "false" else "true"))

/-- Recognizer for section fragment requests, used to count refresh runs:
every refreshCart execution issues exactly one of these, as its first step. -/
def isFetchSection : Request → Bool
  | Request.fetchSection => true
  | _ => false

/-- Number of section fragment fetches in a request trace, hence the number
of refreshCart executions recorded in it. -/
def countSection (l : List Request) : Nat :=
  l.countP isFetchSection

/-- Requests appended by one refreshCart run; it depends only on the
environment, not on the state. -/
def refreshTrace (env : REnv) : List Request :=
  match env.sectionHtml with
  | none => [Request.fetchSection]
  | some _ => [Request.fetchSection, Request.fetchCartJson]

/-- Error message rule as the amended claim states it: the first non-empty
entry of the candidate list, with a final fallback. -/
def firstNonempty : List (Option String) → String → String
  | [], d => d
  | o :: rest, d =>
    match o with
    | some str => if str = "" then firstNonempty rest d else str
    | none => firstNonempty rest d

/-- Specification-side statement of the add failure message: the first
non-empty of description and message, else the fixed fallback text. -/
def errMsgSpec (body : Option ErrBody) : String :=
  match body with
  | none => "Add to cart failed"
  | some b => firstNonempty [b.description, b.message] ("Add to cart failed")

/-- Badge predicate: the hiding class is present. -/
def badgeHidden (b : Badge) : Bool := b.hiddenClass

/-- Badge predicate: the text reads 3 and the bump class is present. -/
def badgeBumped3 (b : Badge) : Bool := b.text == "3" && b.bumpClass

/-- Wrapper predicate: the legacy badge element is absent. -/
def wrapperEmpty (w : Wrapper) : Bool := w.badge == none

/-- Wrapper predicate: the legacy badge element is present with text 3 and
the bump class. -/
def wrapperBumped3 (w : Wrapper) : Bool :=
  w.badge == some { text := "3", bumpClass := true }

/-! Helper lemmas about the traces and the state fields each operation can
touch. -/

theorem countSection_append (l₁ l₂ : List Request) :
    countSection (l₁ ++ l₂) = countSection l₁ + countSection l₂ := by
  simp [countSection, List.countP_append]

@[simp] theorem updateCartBadges_requests (resp : Option Cart) (s : St) :
    ((updateCartBadges resp s).1).requests = s.requests ++ [Request.fetchCartJson] := by
  cases resp <;> simp [updateCartBadges, fetchCart, updateShippingMeter]

@[simp] theorem updateCartBadges_drawer (resp : Option Cart) (s : St) :
    ((updateCartBadges resp s).1).drawer = s.drawer := by
  cases resp <;> simp [updateCartBadges, fetchCart, updateShippingMeter]

@[simp] theorem updateCartBadges_isOpen (resp : Option Cart) (s : St) :
    ((updateCartBadges resp s).1).isOpen = s.isOpen := by
  cases resp <;> simp [updateCartBadges, fetchCart, updateShippingMeter]

@[simp] theorem updateCartBadges_isUpdating (resp : Option Cart) (s : St) :
    ((updateCartBadges resp s).1).isUpdating = s.isUpdating := by
  cases resp <;> simp [updateCartBadges, fetchCart, updateShippingMeter]

@[simp] theorem updateCartBadges_loading (resp : Option Cart) (s : St) :
    ((updateCartBadges resp s).1).loading = s.loading := by
  cases resp <;> simp [updateCartBadges, fetchCart, updateShippingMeter]

theorem refreshCart_requests (env : REnv) (s : St) :
    (refreshCart env s).requests = s.requests ++ refreshTrace env := by
  unfold refreshCart refreshTrace
  cases env.sectionHtml with
  | none => rfl
  | some frag =>
    cases hd : s.drawer with
    | none => simp
    | some d => cases hb : frag.hasDrawer <;> simp [hd, hb]

theorem countSection_refreshTrace (env : REnv) :
    countSection (refreshTrace env) = 1 := by
  unfold refreshTrace
  cases env.sectionHtml <;> simp [countSection, isFetchSection]

theorem refreshCart_isOpen (env : REnv) (s : St) :
    (refreshCart env s).isOpen = s.isOpen := by
  unfold refreshCart
  cases env.sectionHtml with
  | none => rfl
  | some frag =>
    cases hd : s.drawer with
    | none => simp
    | some d => cases hb : frag.hasDrawer <;> simp [hd, hb]

theorem refreshCart_isUpdating (env : REnv) (s : St) :
    (refreshCart env s).isUpdating = s.isUpdating := by
  unfold refreshCart
  cases env.sectionHtml with
  | none => rfl
  | some frag =>
    cases hd : s.drawer with
    | none => simp
    | some d => cases hb : frag.hasDrawer <;> simp [hd, hb]

theorem refreshCart_drawer_none (env : REnv) (s : St) (h : s.drawer = none) :
    (refreshCart env s).drawer = none := by
  unfold refreshCart
  cases env.sectionHtml with
  | none => simpa using h
  | some frag => simp [h]

theorem refreshCart_drawer_some (env : REnv) (s : St) (d : DrawerEl)
    (h : s.drawer = some d) :
    ∃ p, (refreshCart env s).drawer = some { d with panel := p } := by
  unfold refreshCart
  cases env.sectionHtml with
  | none =>
    refine ⟨d.panel, ?_⟩
    simpa using h
  | some frag =>
    cases hb : frag.hasDrawer with
    | false => refine ⟨d.panel, ?_⟩; simp [h, hb]
    | true =>
      obtain ⟨da, dc, dau, dp⟩ := d
      by_cases hp : (frag.panel.isSome && (Option.isSome dp)) = true
      · refine ⟨frag.panel, ?_⟩
        cases dc <;> simp [h, hb, hp]
      · refine ⟨dp, ?_⟩
        cases dc <;> simp [h, hb, hp]

theorem openCart_requests (env : REnv) (s : St) :
    (openCart env s).requests =
      s.requests ++ (if s.drawer.isSome && !s.isOpen then refreshTrace env else []) := by
  unfold openCart
  cases hd : s.drawer with
  | none => simp
  | some d =>
    cases ho : s.isOpen with
    | true => simp
    | false => simp [refreshCart_requests]

theorem openCart_isOpen (env : REnv) (s : St) :
    (openCart env s).isOpen = (s.isOpen || s.drawer.isSome) := by
  unfold openCart
  cases hd : s.drawer with
  | none => simp
  | some d =>
    cases ho : s.isOpen with
    | true => simp [ho]
    | false => simp [refreshCart_isOpen]

/-! Preservation of the drawer visibility invariant. -/

theorem drawerInv_events (s : St) (e : List Ev) :
    drawerInv { s with events := e } = drawerInv s := rfl

theorem drawerInv_refreshCart (env : REnv) (s : St) (h : drawerInv s = true) :
    drawerInv (refreshCart env s) = true := by
  cases hd : s.drawer with
  | none =>
    have hn := refreshCart_drawer_none env s hd
    unfold drawerInv at h ⊢
    rw [hn, refreshCart_isOpen]
    rw [hd] at h
    exact h
  | some d =>
    obtain ⟨p, hp⟩ := refreshCart_drawer_some env s d hd
    unfold drawerInv at h ⊢
    rw [hp, refreshCart_isOpen]
    rw [hd] at h
    simpa using h

theorem drawerInv_openCart (env : REnv) (s : St) (h : drawerInv s = true) :
    drawerInv (openCart env s) = true := by
  unfold openCart
  cases hd : s.drawer with
  | none => exact h
  | some d =>
    cases ho : s.isOpen with
    | true => exact h
    | false =>
      rw [drawerInv_events]
      exact drawerInv_refreshCart env _ (by simp [drawerInv])

theorem drawerInv_closeCart (s : St) (h : drawerInv s = true) :
    drawerInv (closeCart s) = true := by
  unfold closeCart
  cases hd : s.drawer with
  | none => exact h
  | some d =>
    cases ho : s.isOpen with
    | true => simp [drawerInv]
    | false => exact h

theorem drawerInv_toggleCart (env : REnv) (s : St) (h : drawerInv s = true) :
    drawerInv (toggleCart env s) = true := by
  unfold toggleCart
  cases ho : s.isOpen with
  | true => exact drawerInv_closeCart s h
  | false => exact drawerInv_openCart env s h

theorem drawerInv_updateItem (env : UEnv) (k : Option String) (q : Int) (s : St)
    (h : drawerInv s = true) :
    drawerInv (updateItem env k q s) = true := by
  unfold updateItem
  cases hu : s.isUpdating with
  | true => simpa using h
  | false =>
    cases hc : env.changeOk with
    | true =>
      simp only [Bool.false_eq_true, if_false, if_true]
      exact drawerInv_refreshCart env.refresh _ h
    | false =>
      simpa using h

theorem drawerInv_addItem (env : AEnv) (p : AddPayload) (ob : Bool) (s : St)
    (h : drawerInv s = true) :
    drawerInv ((addItem env p ob s).1) = true := by
  unfold addItem
  cases hr : env.resp with
  | networkError m => exact h
  | httpError st bd => exact h
  | success it =>
    cases hb : ob with
    | true => exact drawerInv_openCart env.openRefresh _ (drawerInv_refreshCart env.refresh _ h)
    | false => exact drawerInv_refreshCart env.refresh _ h

theorem drawerInv_removeItem (env : UEnv) (k : Option String) (s : St)
    (h : drawerInv s = true) :
    drawerInv (removeItem env k s) = true :=
  drawerInv_updateItem env k 0 s h

theorem drawerInv_handleAddToCart (env : AEnv) (form : Form) (s : St)
    (h : drawerInv s = true) :
    drawerInv ((handleAddToCart env form s).st) = true := by
  unfold handleAddToCart
  split
  · exact h
  · split
    · exact h
    · split
      · exact h
      · split
        · exact h
        · split <;> (dsimp only; split <;> exact drawerInv_addItem _ _ _ _ h)

theorem drawerInv_handleQuantityClick (env : UEnv) (btn : Option QtyBtn) (s : St)
    (h : drawerInv s = true) :
    drawerInv (handleQuantityClick env btn s) = true := by
  unfold handleQuantityClick
  cases btn with
  | none => exact h
  | some b => exact drawerInv_updateItem env _ _ s h

theorem drawerInv_handleQuantityInput (env : UEnv) (m : Bool) (k : Option String)
    (v : String) (s : St) (h : drawerInv s = true) :
    drawerInv (handleQuantityInput env m k v s) = true := by
  unfold handleQuantityInput
  cases m with
  | true => exact drawerInv_updateItem env _ _ s h
  | false => exact h

theorem drawerInv_handleRemoveClick (env : UEnv) (btn : Option (Option String)) (s : St)
    (h : drawerInv s = true) :
    drawerInv (handleRemoveClick env btn s) = true := by
  unfold handleRemoveClick
  cases btn with
  | none => exact h
  | some k => exact drawerInv_removeItem env k s h

theorem drawerInv_handleCartIconClick (env : REnv) (b : Bool) (s : St)
    (h : drawerInv s = true) :
    drawerInv (handleCartIconClick env b s) = true := by
  unfold handleCartIconClick
  cases b with
  | true => exact drawerInv_openCart env s h
  | false => exact h

theorem drawerInv_handleCloseClick (b : Bool) (s : St) (h : drawerInv s = true) :
    drawerInv (handleCloseClick b s) = true := by
  unfold handleCloseClick
  cases b with
  | true => exact drawerInv_closeCart s h
  | false => exact h

theorem drawerInv_handleKeydown (kn : String) (s : St) (h : drawerInv s = true) :
    drawerInv (handleKeydown kn s) = true := by
  unfold handleKeydown
  by_cases hc : (kn == "Escape" && s.isOpen) = true
  · simpa [hc] using drawerInv_closeCart s h
  · simpa [hc] using h

/-! Facts about the individual operations used by the claims. -/

theorem refreshCart_drawer_isSome (env : REnv) (s : St) :
    (refreshCart env s).drawer.isSome = s.drawer.isSome := by
  cases hd : s.drawer with
  | none => simp [refreshCart_drawer_none env s hd, hd]
  | some d =>
    obtain ⟨p, hp⟩ := refreshCart_drawer_some env s d hd
    simp [hp, hd]

theorem addItem_success_result (env : AEnv) (p : AddPayload) (ob : Bool) (s : St) (it : Item)
    (hr : env.resp = AddResp.success it) :
    (addItem env p ob s).2 = Except.ok it := by
  unfold addItem
  rw [hr]

theorem addItem_success_requests (env : AEnv) (p : AddPayload) (ob : Bool) (s : St) (it : Item)
    (hr : env.resp = AddResp.success it) :
    ((addItem env p ob s).1).requests =
      ((s.requests ++ [Request.addLine p]) ++ refreshTrace env.refresh) ++
        (if ob && s.drawer.isSome && !s.isOpen then refreshTrace env.openRefresh else []) := by
  unfold addItem
  rw [hr]
  cases hb : ob with
  | false => simp [refreshCart_requests, showLoading, hideLoading]
  | true =>
    simp only [hideLoading]
    simp [openCart_requests, refreshCart_requests, refreshCart_drawer_isSome,
      refreshCart_isOpen, showLoading, List.append_assoc]

theorem addItem_success_isOpen (env : AEnv) (p : AddPayload) (ob : Bool) (s : St) (it : Item)
    (hr : env.resp = AddResp.success it) :
    ((addItem env p ob s).1).isOpen =
      (if ob then s.isOpen || s.drawer.isSome else s.isOpen) := by
  unfold addItem
  rw [hr]
  cases hb : ob with
  | false => simp [refreshCart_isOpen, showLoading, hideLoading]
  | true =>
    simp [hideLoading, openCart_isOpen, refreshCart_isOpen, refreshCart_drawer_isSome,
      showLoading]

theorem hideLoading_loading_ne (s : St) : (hideLoading s).loading ≠ some false := by
  cases h : s.loading <;> simp [hideLoading, h]

theorem updateItem_guarded (env : UEnv) (k : Option String) (q : Int) (s : St)
    (h : s.isUpdating = true) :
    updateItem env k q s = s := by
  unfold updateItem
  simp [h]

theorem updateItem_final_isUpdating (env : UEnv) (k : Option String) (q : Int) (s : St)
    (h : s.isUpdating = false) :
    (updateItem env k q s).isUpdating = false := by
  unfold updateItem
  cases hc : env.changeOk <;> simp [h, hideLoading]

theorem updateItem_final_loading (env : UEnv) (k : Option String) (q : Int) (s : St)
    (h : s.isUpdating = false) :
    (updateItem env k q s).loading ≠ some false := by
  unfold updateItem
  simp only [h, Bool.false_eq_true, if_false]
  exact hideLoading_loading_ne _

theorem updateItem_requests (env : UEnv) (k : Option String) (q : Int) (s : St)
    (h : s.isUpdating = false) :
    (s.requests ++ [Request.changeLine k q]) <+: (updateItem env k q s).requests := by
  unfold updateItem
  simp only [h, Bool.false_eq_true, if_false]
  cases hc : env.changeOk with
  | false =>
    exact ⟨[], by simp [showLoading, hideLoading]⟩
  | true =>
    refine ⟨refreshTrace env.refresh, ?_⟩
    simp [refreshCart_requests, showLoading, hideLoading]

@[simp] theorem countSection_nil : countSection [] = 0 := rfl

@[simp] theorem countSection_addLine (p : AddPayload) :
    countSection [Request.addLine p] = 0 := rfl

/-! Concrete elements, states and environments used by the concrete
instances below. -/

/-- Concrete closed drawer. -/
def drawer0 : DrawerEl :=
  { ariaHidden := "true", isOpenClass := false, autoOpenAttr := none, panel := some ("OLD") }

/-- Concrete open drawer. -/
def drawerOpen : DrawerEl :=
  { ariaHidden := "false", isOpenClass := true, autoOpenAttr := none, panel := some ("OLD") }

/-- Concrete page state: closed drawer, one badge, one count element, hidden
loading element, empty traces. -/
def st0 : St := {
  isOpen := false, isUpdating := false, drawer := some drawer0, loading := some true,
  badges := [{ text := "", hiddenClass := true, bumpClass := false }], counts := [""],
  noScroll := false, requests := [], events := [] }

/-- Concrete page state with the drawer open. -/
def stOpen : St := { st0 with isOpen := true, drawer := some drawerOpen }

/-- Concrete page state with an update in flight. -/
def stUpdating : St := { st0 with isUpdating := true }

/-- Concrete fetched fragment carrying new panel content. -/
def frag0 : Fragment := { hasDrawer := true, panel := some ("NEW"), loading := some true }

/-- Concrete cart with three items. -/
def cart3 : Cart := { item_count := 3, total_price := 1500 }

/-- Concrete empty cart. -/
def cart0 : Cart := { item_count := 0, total_price := 0 }

/-- Refresh environment where both fetches succeed. -/
def renv0 : REnv := { sectionHtml := some frag0, cartJson := some cart3 }

/-- Refresh environment where the fragment fetch succeeds but the cart JSON
fetch fails. -/
def renvNoCart : REnv := { sectionHtml := some frag0, cartJson := none }

/-- Refresh environment where the fragment fetch throws. -/
def renvFail : REnv := { sectionHtml := none, cartJson := none }

/-- Update environment where the change request succeeds. -/
def uenv0 : UEnv := { changeOk := true, refresh := renv0 }

/-- Update environment where the change request fails. -/
def uenvFail : UEnv := { changeOk := false, refresh := renvFail }

/-- Concrete added line. -/
def item0 : Item := { id := 42 }

/-- Concrete add payload. -/
def p0 : AddPayload := AddPayload.formData []

/-- Add environment for a successful add. -/
def aenvOk : AEnv := { resp := AddResp.success item0, refresh := renv0, openRefresh := renv0 }

/-- Error body of the sold-out scenario. -/
def bodySold : ErrBody := { description := some ("Sold out"), message := none }

/-- Add environment answering 422 with the sold-out body. -/
def aenvSold : AEnv :=
  { resp := AddResp.httpError 422 (some bodySold), refresh := renv0, openRefresh := renv0 }

/-- Error body whose description field is present but empty. -/
def bodyEmptyDesc : ErrBody := { description := some (""), message := some ("Nope") }

/-- Add environment answering 422 with the empty-description body. -/
def aenvEmptyDesc : AEnv :=
  { resp := AddResp.httpError 422 (some bodyEmptyDesc), refresh := renv0, openRefresh := renv0 }

/-- Add environment where the fetch itself rejects. -/
def aenvNet : AEnv :=
  { resp := AddResp.networkError ("boom"), refresh := renv0, openRefresh := renv0 }

/-- Concrete submit button. -/
def btn0 : BtnState := { disabled := false, content := "Add", successClass := false }

/-- Concrete well-formed add-to-cart form. -/
def formOk : Form :=
  { action := some ("/cart/add"), variantId := some ("123"), btn := some btn0, entries := [] }

/-- Concrete legacy wrappers, one with a badge and one without. -/
def ws0 : List Wrapper := [{ badge := some { text := "", bumpClass := false } }, { badge := none }]

/-! Claim C1. -/

/-- C1 counterexample: the claim says a successful addItem call results in
exactly one execution of refreshCart. At a concrete state with a present,
closed drawer and openDrawerAfter true, the successful add executes
refreshCart twice: once directly and once more from open, as the two section
fetches in the request trace record. -/
theorem C1_counterexample :
    (addItem aenvOk p0 true st0).2 = Except.ok item0 ∧
    countSection ((addItem aenvOk p0 true st0).1).requests = 2 ∧
    countSection ((addItem aenvOk p0 true st0).1).requests ≠ 1 :=
  ⟨rfl, by decide, by decide⟩

/-- C1 (amended): for every valid add payload, a successful addItem call
executes refreshCart exactly once directly, plus one more execution started
by open exactly when the call transitions the drawer from closed to open
(openDrawerAfter true, drawer element present, drawer closed) — so two in
that case; and whenever openDrawerAfter is true and the drawer element is
present, the drawer state is open afterwards; the added line is returned. -/
theorem C1_addItem_refresh_and_open (env : AEnv) (p : AddPayload) (ob : Bool) (s : St)
    (it : Item) (hr : env.resp = AddResp.success it) :
    countSection ((addItem env p ob s).1).requests =
      countSection s.requests + (if ob && s.drawer.isSome && !s.isOpen then 2 else 1) ∧
    (ob = true → s.drawer.isSome = true → ((addItem env p ob s).1).isOpen = true) ∧
    (addItem env p ob s).2 = Except.ok it := by
  refine ⟨?_, ?_, addItem_success_result env p ob s it hr⟩
  · rw [addItem_success_requests env p ob s it hr]
    cases hc : (ob && s.drawer.isSome && !s.isOpen) with
    | false =>
      simp only [hc, countSection_append, countSection_refreshTrace,
        countSection_addLine, countSection_nil, Bool.false_eq_true, if_false]
    | true =>
      simp only [hc, countSection_append, countSection_refreshTrace,
        countSection_addLine, countSection_nil, if_true]
  · intro hob hds
    rw [addItem_success_isOpen env p ob s it hr, hob, if_pos rfl, hds]
    simp

/-- C1 witness: the amended theorem at the concrete successful add with a
present, closed drawer. -/
theorem C1_witness :
    countSection ((addItem aenvOk p0 true st0).1).requests = countSection st0.requests + 2 ∧
    ((addItem aenvOk p0 true st0).1).isOpen = true ∧
    (addItem aenvOk p0 true st0).2 = Except.ok item0 :=
  ⟨(C1_addItem_refresh_and_open aenvOk p0 true st0 item0 rfl).1,
   (C1_addItem_refresh_and_open aenvOk p0 true st0 item0 rfl).2.1 rfl rfl,
   (C1_addItem_refresh_and_open aenvOk p0 true st0 item0 rfl).2.2⟩

/-! Claim C2. -/

/-- C2: updateItem is single-flight. A call made while isUpdating is true
returns with the state completely unchanged — no second network request, no
queueing, no error. A call that does start leaves isUpdating false and the
global loading indicator cleared when the operation settles, whether the
change request succeeded or failed. -/
theorem C2_updateItem_single_flight (env : UEnv) (k : Option String) (q : Int) (s : St) :
    (s.isUpdating = true → updateItem env k q s = s) ∧
    (s.isUpdating = false →
      (updateItem env k q s).isUpdating = false ∧
      (updateItem env k q s).loading ≠ some false) :=
  ⟨fun h => updateItem_guarded env k q s h,
   fun h => ⟨updateItem_final_isUpdating env k q s h, updateItem_final_loading env k q s h⟩⟩

/-- C2 witness: the theorem at a concrete guarded call and at a concrete
started call. -/
theorem C2_witness :
    updateItem uenv0 (some ("a")) 2 stUpdating = stUpdating ∧
    (updateItem uenv0 (some ("a")) 2 st0).isUpdating = false ∧
    (updateItem uenv0 (some ("a")) 2 st0).loading ≠ some false :=
  ⟨(C2_updateItem_single_flight uenv0 (some ("a")) 2 stUpdating).1 rfl,
   ((C2_updateItem_single_flight uenv0 (some ("a")) 2 st0).2 rfl).1,
   ((C2_updateItem_single_flight uenv0 (some ("a")) 2 st0).2 rfl).2⟩

/-! Claim C3. -/

/-- C3: a refreshCart run started with the drawer open (isOpen true and the
is-open class present) keeps the open class afterwards: the patch replaces
only the panel content, leaving the outer drawer container — its aria-hidden
value and auto-open attribute — unchanged, and the open flag still holds. -/
theorem C3_refresh_preserves_open_class (env : REnv) (s : St) (d : DrawerEl)
    (hd : s.drawer = some d) (hcls : d.isOpenClass = true) (ho : s.isOpen = true) :
    ((refreshCart env s).drawer).map DrawerEl.isOpenClass = some true ∧
    ((refreshCart env s).drawer).map DrawerEl.ariaHidden = some d.ariaHidden ∧
    ((refreshCart env s).drawer).map DrawerEl.autoOpenAttr = some d.autoOpenAttr ∧
    (refreshCart env s).isOpen = true := by
  obtain ⟨p, hp⟩ := refreshCart_drawer_some env s d hd
  refine ⟨?_, ?_, ?_, ?_⟩ <;> simp [hp, hcls, refreshCart_isOpen, ho]

/-- C3 witness: the theorem at a concrete open state and fully successful
refresh environment. -/
theorem C3_witness :
    ((refreshCart renv0 stOpen).drawer).map DrawerEl.isOpenClass = some true ∧
    ((refreshCart renv0 stOpen).drawer).map DrawerEl.ariaHidden = some ("false") ∧
    ((refreshCart renv0 stOpen).drawer).map DrawerEl.autoOpenAttr = some none ∧
    (refreshCart renv0 stOpen).isOpen = true :=
  C3_refresh_preserves_open_class renv0 stOpen drawerOpen rfl rfl rfl

/-! Claim C5. -/

/-- C5: removeItem is literally updateItem with quantity zero, and an
unguarded call issues the change request carrying quantity zero to the
change endpoint as the next request in the trace (followed only by the
refresh requests). -/
theorem C5_remove_is_update_zero (env : UEnv) (k : Option String) (s : St) :
    removeItem env k s = updateItem env k 0 s ∧
    (s.isUpdating = false →
      (s.requests ++ [Request.changeLine k 0]) <+: (updateItem env k 0 s).requests) :=
  ⟨rfl, fun h => updateItem_requests env k 0 s h⟩

/-- C5 witness: the theorem at a concrete line key and idle state. -/
theorem C5_witness :
    removeItem uenv0 (some ("a")) st0 = updateItem uenv0 (some ("a")) 0 st0 ∧
    (st0.requests ++ [Request.changeLine (some ("a")) 0]) <+:
      (updateItem uenv0 (some ("a")) 0 st0).requests :=
  ⟨(C5_remove_is_update_zero uenv0 (some ("a")) st0).1,
   (C5_remove_is_update_zero uenv0 (some ("a")) st0).2 rfl⟩

/-! Claim C4. -/

theorem addItem_httpError_result (env : AEnv) (p : AddPayload) (ob : Bool) (s : St)
    (status : Nat) (body : Option ErrBody) (hr : env.resp = AddResp.httpError status body) :
    (addItem env p ob s).2 = Except.error (addErrorMessage body) := by
  unfold addItem
  rw [hr]

theorem addItem_networkError_result (env : AEnv) (p : AddPayload) (ob : Bool) (s : St)
    (m : String) (hr : env.resp = AddResp.networkError m) :
    (addItem env p ob s).2 = Except.error m := by
  unfold addItem
  rw [hr]

theorem addErrorMessage_eq_spec (body : Option ErrBody) :
    addErrorMessage body = errMsgSpec body := by
  cases body with
  | none => rfl
  | some b =>
    cases hd : b.description <;> cases hm : b.message <;>
      simp only [addErrorMessage, errMsgSpec, jsStringOr, firstNonempty, hd, hm]

theorem handleAddToCart_failure (env : AEnv) (form : Form) (s : St)
    (a vid : String) (b0 : BtnState) (status : Nat) (body : Option ErrBody)
    (hr : env.resp = AddResp.httpError status body)
    (ha : form.action = some a) (hinc : jsIncludes a ("/cart/add") = true)
    (hv : form.variantId = some vid) (hvne : vid ≠ "")
    (hb : form.btn = some b0) :
    (handleAddToCart env form s).prevented = true ∧
    (handleAddToCart env form s).nativeSubmit = true ∧
    (handleAddToCart env form s).btn =
      some { disabled := false, content := b0.content, successClass := b0.successClass } := by
  unfold handleAddToCart
  rw [ha, hb, hv]
  have h1 : jsIncludes a ("/cart/add") = false ↔ False := by simp [hinc]
  have h2 : jsStringOr (some vid) "" = "" ↔ False := by simp [jsStringOr, hvne]
  simp only [h1, h2, if_false]
  rw [addItem_httpError_result env _ _ s status body hr]
  exact ⟨rfl, rfl, rfl⟩

/-- C4 counterexample: the claim says the surfaced message equals the
description field if present. At a response body whose description field is
present but empty, the code falls through to the message field (JS falsiness),
so the surfaced message is the message field, not the empty description. -/
theorem C4_counterexample :
    bodyEmptyDesc.description = some ("") ∧
    (addItem aenvEmptyDesc p0 true st0).2 = Except.error ("Nope") ∧
    Except.error ("Nope") ≠ (Except.error ("") : Except String Item) :=
  ⟨rfl, rfl, by simp⟩

/-- C4 (amended): for every addItem call whose HTTP response has a
non-success status, the operation fails with an error whose message is the
first non-empty of the description and message fields of the response body,
defaulting to the fixed fallback text (an empty-string field is skipped); a
422 response with a sold-out description surfaces exactly that text; and the
form-submission handler then restores the submit button and triggers a
native form submission as fallback. -/
theorem C4_add_failure_surface (env : AEnv) (p : AddPayload) (ob : Bool) (s : St)
    (status : Nat) (body : Option ErrBody) (form : Form) (a vid : String) (b0 : BtnState)
    (hr : env.resp = AddResp.httpError status body)
    (ha : form.action = some a) (hinc : jsIncludes a ("/cart/add") = true)
    (hv : form.variantId = some vid) (hvne : vid ≠ "") (hb : form.btn = some b0) :
    (addItem env p ob s).2 = Except.error (errMsgSpec body) ∧
    (body = some { description := some ("Sold out"), message := none } →
      errMsgSpec body = "Sold out") ∧
    (handleAddToCart env form s).prevented = true ∧
    (handleAddToCart env form s).nativeSubmit = true ∧
    (handleAddToCart env form s).btn =
      some { disabled := false, content := b0.content, successClass := b0.successClass } := by
  obtain ⟨hp, hn, hbf⟩ :=
    handleAddToCart_failure env form s a vid b0 status body hr ha hinc hv hvne hb
  refine ⟨?_, ?_, hp, hn, hbf⟩
  · rw [addItem_httpError_result env p ob s status body hr, addErrorMessage_eq_spec]
  · intro hbody
    subst hbody
    rfl

/-- C4 witness: the amended theorem at the concrete sold-out scenario. -/
theorem C4_witness :
    (addItem aenvSold p0 true st0).2 = Except.error (errMsgSpec (some bodySold)) ∧
    errMsgSpec (some bodySold) = "Sold out" ∧
    (handleAddToCart aenvSold formOk st0).prevented = true ∧
    (handleAddToCart aenvSold formOk st0).nativeSubmit = true ∧
    (handleAddToCart aenvSold formOk st0).btn =
      some { disabled := false, content := btn0.content, successClass := btn0.successClass } := by
  have h := C4_add_failure_surface aenvSold p0 true st0 422 (some bodySold) formOk
    ("/cart/add") ("123") btn0 rfl rfl (by decide) rfl (by decide) rfl
  exact ⟨h.1, h.2.1 rfl, h.2.2.1, h.2.2.2.1, h.2.2.2.2⟩

/-! Claim C6. -/

theorem toString_three : toString (3 : Nat) = "3" := rfl

/-- C6: after a successful updateCartBadges run with item count zero, every
badge element carries the hiding class, and the legacy variant removes every
badge element; with item count three, every badge element reads 3 with the
bump animation class present after the remove / forced layout read / re-add
cycle, in both variants. -/
theorem C6_badge_update (s : St) (cart : Cart) (ws : List Wrapper) :
    (cart.item_count = 0 →
      (((updateCartBadges (some cart) s).1).badges).all badgeHidden = true ∧
      (updateCartBadge (some cart) ws).all wrapperEmpty = true) ∧
    (cart.item_count = 3 →
      (((updateCartBadges (some cart) s).1).badges).all badgeBumped3 = true ∧
      (updateCartBadge (some cart) ws).all wrapperBumped3 = true) := by
  constructor
  · intro h0
    constructor
    · simp [updateCartBadges, fetchCart, updateShippingMeter, updateBadgeEl,
        badgeHidden, List.all_eq_true, h0]
    · simp [updateCartBadge, wrapperEmpty, h0, List.all_eq_true]
  · intro h3
    constructor
    · simp [updateCartBadges, fetchCart, updateShippingMeter, updateBadgeEl,
        badgeBumped3, List.all_eq_true, h3, toString_three]
    · simp [updateCartBadge, wrapperBumped3, h3, List.all_eq_true, toString_three]

/-- C6 witness: the theorem at the empty cart and at the three-item cart, on
concrete badges and wrappers. -/
theorem C6_witness :
    (((updateCartBadges (some cart0) st0).1).badges).all badgeHidden = true ∧
    (updateCartBadge (some cart0) ws0).all wrapperEmpty = true ∧
    (((updateCartBadges (some cart3) st0).1).badges).all badgeBumped3 = true ∧
    (updateCartBadge (some cart3) ws0).all wrapperBumped3 = true :=
  ⟨((C6_badge_update st0 cart0 ws0).1 rfl).1,
   ((C6_badge_update st0 cart0 ws0).1 rfl).2,
   ((C6_badge_update st0 cart3 ws0).2 rfl).1,
   ((C6_badge_update st0 cart3 ws0).2 rfl).2⟩

/-! Claim C7. -/

/-- C7: every operation of the controller — open, close, toggle, refreshCart,
the remote operations and every event handler that invokes them — preserves
the drawer visibility invariant: the presence of the is-open class and the
aria-hidden value match the module-level isOpen flag (and the flag is down
whenever the drawer element is absent). -/
theorem C7_visibility_invariant (s : St) (e1 e2 e3 e4 : REnv) (ue : UEnv) (ae : AEnv)
    (p : AddPayload) (ob ic cc mi : Bool) (kn v : String) (k : Option String) (q : Int)
    (qb : Option QtyBtn) (rb : Option (Option String)) (form : Form)
    (h : drawerInv s = true) :
    drawerInv (openCart e1 s) = true ∧
    drawerInv (closeCart s) = true ∧
    drawerInv (toggleCart e2 s) = true ∧
    drawerInv (refreshCart e3 s) = true ∧
    drawerInv ((addItem ae p ob s).1) = true ∧
    drawerInv (updateItem ue k q s) = true ∧
    drawerInv (removeItem ue k s) = true ∧
    drawerInv (handleCartIconClick e4 ic s) = true ∧
    drawerInv (handleCloseClick cc s) = true ∧
    drawerInv (handleKeydown kn s) = true ∧
    drawerInv (handleQuantityClick ue qb s) = true ∧
    drawerInv (handleQuantityInput ue mi k v s) = true ∧
    drawerInv (handleRemoveClick ue rb s) = true ∧
    drawerInv ((handleAddToCart ae form s).st) = true :=
  ⟨drawerInv_openCart e1 s h, drawerInv_closeCart s h, drawerInv_toggleCart e2 s h,
   drawerInv_refreshCart e3 s h, drawerInv_addItem ae p ob s h,
   drawerInv_updateItem ue k q s h, drawerInv_removeItem ue k s h,
   drawerInv_handleCartIconClick e4 ic s h, drawerInv_handleCloseClick cc s h,
   drawerInv_handleKeydown kn s h, drawerInv_handleQuantityClick ue qb s h,
   drawerInv_handleQuantityInput ue mi k v s h, drawerInv_handleRemoveClick ue rb s h,
   drawerInv_handleAddToCart ae form s h⟩

/-- C7 witness: the theorem at a concrete state satisfying the invariant and
concrete environments and inputs for every operation. -/
theorem C7_witness :
    drawerInv (openCart renv0 st0) = true ∧
    drawerInv (closeCart st0) = true ∧
    drawerInv (toggleCart renv0 st0) = true ∧
    drawerInv (refreshCart renv0 st0) = true ∧
    drawerInv ((addItem aenvOk p0 true st0).1) = true ∧
    drawerInv (updateItem uenv0 (some ("a")) 1 st0) = true ∧
    drawerInv (removeItem uenv0 (some ("a")) st0) = true ∧
    drawerInv (handleCartIconClick renv0 true st0) = true ∧
    drawerInv (handleCloseClick true st0) = true ∧
    drawerInv (handleKeydown ("Escape") st0) = true ∧
    drawerInv (handleQuantityClick uenv0 none st0) = true ∧
    drawerInv (handleQuantityInput uenv0 true (some ("a")) ("2") st0) = true ∧
    drawerInv (handleRemoveClick uenv0 none st0) = true ∧
    drawerInv ((handleAddToCart aenvOk formOk st0).st) = true :=
  C7_visibility_invariant st0 renv0 renv0 renv0 renv0 uenv0 aenvOk p0 true true true true
    ("Escape") ("2") (some ("a")) 1 none none formOk rfl

/-! Claim C8. -/

/-- C8 counterexample: the claim says a badge-update failure leaves the
previously displayed DOM state unchanged. At a refresh whose fragment fetch
succeeds but whose cart JSON fetch fails, the panel content has already been
patched from OLD to NEW when the badge update fails, so the displayed DOM
differs from before. -/
theorem C8_counterexample :
    renvNoCart.cartJson = none ∧
    ((refreshCart renvNoCart st0).drawer).map DrawerEl.panel = some (some ("NEW")) ∧
    (st0.drawer).map DrawerEl.panel = some (some ("OLD")) ∧
    (refreshCart renvNoCart st0).drawer ≠ st0.drawer :=
  ⟨rfl, by decide, by decide, by decide⟩

/-- C8 (amended): when the fragment fetch or HTML parse fails, refreshCart
catches and logs the failure and leaves everything except the request trace
unchanged — the previous DOM remains displayed; when only the badge update
(cart JSON fetch) fails, refreshCart still resolves without error and leaves
badges, count texts and events unchanged, though the panel patch from the
successfully fetched fragment has already been applied. -/
theorem C8_refresh_failure_policy (env : REnv) (s : St) :
    (env.sectionHtml = none →
      refreshCart env s = { s with requests := s.requests ++ [Request.fetchSection] }) ∧
    (env.cartJson = none →
      (refreshCart env s).badges = s.badges ∧
      (refreshCart env s).counts = s.counts ∧
      (refreshCart env s).events = s.events) := by
  constructor
  · intro h
    unfold refreshCart
    rw [h]
  · intro h
    unfold refreshCart
    cases hs : env.sectionHtml with
    | none => simp
    | some frag =>
      rw [h]
      refine ⟨?_, ?_, ?_⟩ <;>
      · cases hd : s.drawer with
        | none => simp [updateCartBadges, fetchCart]
        | some d => cases hb : frag.hasDrawer <;> simp [updateCartBadges, fetchCart, hd, hb]

/-- C8 witness: the amended theorem at a concrete failed fragment fetch and
at a concrete failed cart JSON fetch. -/
theorem C8_witness :
    refreshCart renvFail st0 = { st0 with requests := st0.requests ++ [Request.fetchSection] } ∧
    (refreshCart renvNoCart stOpen).badges = stOpen.badges ∧
    (refreshCart renvNoCart stOpen).counts = stOpen.counts ∧
    (refreshCart renvNoCart stOpen).events = stOpen.events :=
  ⟨(C8_refresh_failure_policy renvFail st0).1 rfl,
   ((C8_refresh_failure_policy renvNoCart stOpen).2 rfl).1,
   ((C8_refresh_failure_policy renvNoCart stOpen).2 rfl).2.1,
   ((C8_refresh_failure_policy renvNoCart stOpen).2 rfl).2.2⟩

/-! Claim C9. -/

/-- C9 counterexample: the claim says every quantity the UI handlers pass to
updateItem is non-negative. A quantity-input change event whose typed value
reads -3 parses to the negative number -3, which is truthy and passed through
to updateItem, reaching the change endpoint as a negative quantity. -/
theorem C9_counterexample :
    (handleQuantityInput uenvFail true (some ("k")) ("-3") st0).requests =
      [Request.changeLine (some ("k")) (-3)] ∧
    (-3 : Int) < 0 :=
  ⟨by decide, by decide⟩

/-- C9 (amended): quantity-button clicks pass max(0, current + change) with
non-parsable change defaulting to 0 and non-parsable current quantity to 1,
hence always a non-negative quantity; a quantity-input change passes
parseInt(value) with fallback 0, so a non-parsable value is coerced to 0 and
turns the edit into a removal, but a value parsing to a negative number is
passed through negative. -/
theorem C9_handler_quantities (env : UEnv) (s : St) (qb : QtyBtn) (k : Option String)
    (v : String) :
    handleQuantityClick env (some qb) s =
      updateItem env qb.lineKey
        (max 0 (parseIntOr qb.inputValue 1 + parseIntOr qb.qtyChangeAttr 0)) s ∧
    0 ≤ max (0 : Int) (parseIntOr qb.inputValue 1 + parseIntOr qb.qtyChangeAttr 0) ∧
    handleQuantityInput env true k v s = updateItem env k (parseIntOr (some v) 0) s ∧
    (jsParseInt v = none → parseIntOr (some v) 0 = 0) :=
  ⟨rfl, le_max_left 0 _, rfl, fun h => by simp [parseIntOr, h]⟩

/-- Concrete quantity stepper button: decrement on a line showing quantity
two. -/
def qb0 : QtyBtn :=
  { lineKey := some ("a"), qtyChangeAttr := some ("-1"), inputValue := some ("2") }

/-- C9 witness: the amended theorem at a concrete decrement click and at a
concrete non-parsable input value. -/
theorem C9_witness :
    handleQuantityClick uenv0 (some qb0) st0 =
      updateItem uenv0 qb0.lineKey
        (max 0 (parseIntOr qb0.inputValue 1 + parseIntOr qb0.qtyChangeAttr 0)) st0 ∧
    0 ≤ max (0 : Int) (parseIntOr qb0.inputValue 1 + parseIntOr qb0.qtyChangeAttr 0) ∧
    handleQuantityInput uenv0 true (some ("a")) ("abc") st0 =
      updateItem uenv0 (some ("a")) (parseIntOr (some ("abc")) 0) st0 ∧
    parseIntOr (some ("abc")) 0 = 0 :=
  ⟨(C9_handler_quantities uenv0 st0 qb0 (some ("a")) ("abc")).1,
   (C9_handler_quantities uenv0 st0 qb0 (some ("a")) ("abc")).2.1,
   (C9_handler_quantities uenv0 st0 qb0 (some ("a")) ("abc")).2.2.1,
   (C9_handler_quantities uenv0 st0 qb0 (some ("a")) ("abc")).2.2.2 rfl⟩

/-! Claim C10. -/

theorem addItem_loading_cleared (env : AEnv) (p : AddPayload) (ob : Bool) (s : St) :
    ((addItem env p ob s).1).loading ≠ some false := by
  unfold addItem
  cases hr : env.resp with
  | networkError m => exact hideLoading_loading_ne _
  | httpError status body => exact hideLoading_loading_ne _
  | success it => exact hideLoading_loading_ne _

/-- C10: addItem always hides the global loading indicator when it settles,
whatever the outcome; on a non-success status or a network rejection it
re-raises the error to its caller after logging, carrying the computed
message, and on success it returns the added line. -/
theorem C10_addItem_settles (env : AEnv) (p : AddPayload) (ob : Bool) (s : St)
    (m : String) (status : Nat) (body : Option ErrBody) (it : Item) :
    ((addItem env p ob s).1).loading ≠ some false ∧
    (env.resp = AddResp.networkError m → (addItem env p ob s).2 = Except.error m) ∧
    (env.resp = AddResp.httpError status body →
      (addItem env p ob s).2 = Except.error (addErrorMessage body)) ∧
    (env.resp = AddResp.success it → (addItem env p ob s).2 = Except.ok it) :=
  ⟨addItem_loading_cleared env p ob s,
   fun h => addItem_networkError_result env p ob s m h,
   fun h => addItem_httpError_result env p ob s status body h,
   fun h => addItem_success_result env p ob s it h⟩

/-- C10 witness: the theorem at a concrete network failure, a concrete HTTP
failure and a concrete success. -/
theorem C10_witness :
    ((addItem aenvNet p0 true st0).1).loading ≠ some false ∧
    (addItem aenvNet p0 true st0).2 = Except.error ("boom") ∧
    (addItem aenvSold p0 false st0).2 = Except.error (addErrorMessage (some bodySold)) ∧
    (addItem aenvOk p0 false st0).2 = Except.ok item0 :=
  ⟨(C10_addItem_settles aenvNet p0 true st0 ("boom") 422 (some bodySold) item0).1,
   (C10_addItem_settles aenvNet p0 true st0 ("boom") 422 (some bodySold) item0).2.1 rfl,
   (C10_addItem_settles aenvSold p0 false st0 ("boom") 422 (some bodySold) item0).2.2.1 rfl,
   (C10_addItem_settles aenvOk p0 false st0 ("boom") 422 (some bodySold) item0).2.2.2 rfl⟩

end LeanCart
